import Mathlib

/-!
Verification development for `create_release.py`, the interactive release
pipeline of the ScriptGeneratorReleases repository.

The script is embedded shallowly: every effect the program performs
(operator prompts, printing, HTTP requests, shell calls, filesystem
mutation) is recorded in an explicit trace, operator input is an explicit
list of response lines, the remote release host and the `net use` shell
command are an explicit environment, and Python exceptions are an explicit
error type.  Each Python function of the source file becomes a Lean
definition of the same name over this monad.
-/

namespace CreateRelease

/-- Python `StepException` (src line 9): the distinguished step-failure
exception type, carrying a human-readable message. -/
structure StepException where
  message : String
deriving Repr, DecidableEq

/-- The Python exceptions that can arise in the script.  `stepExc` is the
script's own `StepException`; the others model built-in exceptions raised
by the operations the script calls (`input()[0]` on an empty string raises
`IndexError`, dict indexing raises `KeyError`, `shutil`/`os` calls raise
`FileNotFoundError`/`OSError`, `subprocess.check_call` raises
`CalledProcessError`, `input()` at end of input raises `EOFError`). -/
inductive PyError where
  | stepExc (e : StepException)
  | indexError
  | keyError (key : String)
  | typeError
  | fileNotFound (path : String)
  | osError (message : String)
  | calledProcess (message : String)
  | eofError
deriving Repr, DecidableEq

/-- JSON values, as returned by `response.json()`. -/
inductive Json where
  | null
  | bool (b : Bool)
  | str (s : String)
  | num (n : Int)
  | arr (elems : List Json)
  | obj (fields : List (String × Json))

/-- Contents of a file.  Directory trees are abstracted to a `Nat`
fingerprint (the script only ever moves whole trees around with
`shutil.rmtree` / `shutil.copytree` / `shutil.make_archive`, never looking
inside them, so only whole-tree identity matters); `zipOfDir c` is the
archive produced from a directory whose tree fingerprint is `c`. -/
inductive FData where
  | raw (bytes : Nat)
  | zipOfDir (content : Nat)
deriving Repr, DecidableEq

/-- A filesystem node: a directory with an abstract tree fingerprint, or a
single file. -/
inductive FSNode where
  | dir (content : Nat)
  | file (data : FData)
deriving Repr, DecidableEq

/-- An HTTP request as issued by the `requests` library calls in the
script: method, URL, the explicitly passed headers (the script passes
either an `Authorization` header dict or no headers at all), the `json=`
payload (empty when not passed) and the `data=` file payload. -/
structure HttpRequest where
  method : String
  url : String
  headers : List (String × String)
  jsonBody : List (String × Json)
  dataFile : Option FData

/-- An HTTP response: the fields of `requests.Response` the script reads.
`response.json()` is modelled as the pre-parsed `json` field. -/
structure HttpResponse where
  status_code : Nat
  reason : String
  text : String
  json : Json

/-- One observable effect of a program run. -/
inductive Event where
  | prompt (text : String)
  | print (text : String)
  | printJson (j : Json)
  | shell (cmd : String)
  | http (req : HttpRequest)
  | removeTree (path : String)
  | removeFile (path : String)
  | copyTree (src dst : String)
  | makeArchive (base format root : String)

/-- The ambient environment of a run: the remote release host (what
response each HTTP request receives), the outcome of the `net use` shell
command (`none` = exit code 0, `some m` = `CalledProcessError` rendered as
`m`), and the answer `os.listdir` gives for a path (directory listing is
only used by the `remove sms lib` step, whose inner tree structure the
filesystem abstraction does not track). -/
structure Env where
  http : HttpRequest → HttpResponse
  netUse : String → Option String
  listdir : String → List String

/-- The mutable state of a run: the remaining operator input lines and the
filesystem, a map from path to node. -/
structure S where
  stdin : List String
  fs : String → Option FSNode

/-- The effect monad of the embedding: reader of `Env`, state of `S`,
writer of the event trace, exceptions of `PyError`. -/
def M (α : Type) : Type := Env → S → Except PyError α × List Event × S

def M.pure (a : α) : M α := fun _ s => (Except.ok a, [], s)

def M.bind (x : M α) (f : α → M β) : M β := fun env s =>
  match x env s with
  | (Except.ok a, evs, s1) =>
    let out := f a env s1
    (out.1, evs ++ out.2.1, out.2.2)
  | (Except.error e, evs, s1) => (Except.error e, evs, s1)

instance : Monad M where
  pure := M.pure
  bind := M.bind

/-- Record one event. -/
def emit (e : Event) : M Unit := fun _ s => (Except.ok (), [e], s)

/-- Python `print`. -/
def printLine (t : String) : M Unit := emit (Event.print t)

/-- Python `print(str(response.json()))`. -/
def printJson (j : Json) : M Unit := emit (Event.printJson j)

/-- Raise a Python exception. -/
def throwPy (e : PyError) : M α := fun _ s => (Except.error e, [], s)

/-- Python `input(prompt)`: display the prompt and consume the next
operator input line; at end of input `input` raises `EOFError`. -/
def inputLine (prompt : String) : M String := fun _ s =>
  match s.stdin with
  | [] => (Except.error PyError.eofError, [Event.prompt prompt], s)
  | l :: rest => (Except.ok l, [Event.prompt prompt], ⟨rest, s.fs⟩)

/-- A Python `try`/`except` block: run `x`; on an exception, run the
handler (which re-raises the exceptions its clauses do not match). -/
def pyTry (x : M α) (handler : PyError → M α) : M α := fun env s =>
  match x env s with
  | (Except.error e, evs, s1) =>
    let out := handler e env s1
    (out.1, evs ++ out.2.1, out.2.2)
  | ok => ok

/-- Issue an HTTP request and receive the environment's response. -/
def httpCall (req : HttpRequest) : M HttpResponse := fun env s =>
  (Except.ok (env.http req), [Event.http req], s)

/-- Python `subprocess.check_call(cmd, shell=True, ...)`. -/
def subprocess_check_call (cmd : String) : M Unit := fun env s =>
  match env.netUse cmd with
  | none => (Except.ok (), [Event.shell cmd], s)
  | some m => (Except.error (PyError.calledProcess m), [Event.shell cmd], s)

/-- Read the filesystem node at a path (no observable event). -/
def fsGet (path : String) : M (Option FSNode) := fun _ s => (Except.ok (s.fs path), [], s)

/-- Overwrite the filesystem node at a path (no observable event; the
observable filesystem events are emitted by the operations below). -/
def fsSet (path : String) (v : Option FSNode) : M Unit := fun _ s =>
  (Except.ok (), [], ⟨s.stdin, fun p => if p = path then v else s.fs p⟩)

/-- Python `os.path.isdir`. -/
def os_path_isdir (path : String) : M Bool := fun _ s =>
  (Except.ok (match s.fs path with | some (FSNode.dir _) => true | _ => false), [], s)

/-- Python `os.listdir`, answered by the environment (see `Env.listdir`). -/
def os_listdir (path : String) : M (List String) := fun env s =>
  (Except.ok (env.listdir path), [], s)

/-- Python `shutil.rmtree`: removes a directory tree; raises
`FileNotFoundError` when the path is absent and `NotADirectoryError`
(an `OSError`) when it is a plain file. -/
def rmtree (path : String) : M Unit := do
  emit (Event.removeTree path)
  let n ← fsGet path
  match n with
  | some (FSNode.dir _) => fsSet path none
  | some (FSNode.file _) => throwPy (PyError.osError ("NotADirectoryError: " ++ path))
  | none => throwPy (PyError.fileNotFound path)

/-- Python `os.remove`: removes a file; raises `FileNotFoundError` when
absent and `IsADirectoryError` (an `OSError`) on a directory. -/
def os_remove (path : String) : M Unit := do
  emit (Event.removeFile path)
  let n ← fsGet path
  match n with
  | some (FSNode.file _) => fsSet path none
  | some (FSNode.dir _) => throwPy (PyError.osError ("IsADirectoryError: " ++ path))
  | none => throwPy (PyError.fileNotFound path)

/-- Python `shutil.copytree(src, dst)`: reads the source tree (raising
`FileNotFoundError` when absent, `NotADirectoryError` when a file), then
creates the destination, raising `FileExistsError` (an `OSError`) when the
destination already exists. -/
def copytree (src dst : String) : M Unit := do
  emit (Event.copyTree src dst)
  let sN ← fsGet src
  match sN with
  | some (FSNode.dir c) =>
    let d ← fsGet dst
    match d with
    | some _ => throwPy (PyError.osError ("FileExistsError: " ++ dst))
    | none => fsSet dst (some (FSNode.dir c))
  | some (FSNode.file _) => throwPy (PyError.osError ("NotADirectoryError: " ++ src))
  | none => throwPy (PyError.fileNotFound src)

/-- Python `shutil.make_archive(base_name, format, root_dir)`: packages
the root directory into the file `base_name ++ "." ++ format`,
overwriting any file already at that name. -/
def make_archive (base_name format root_dir : String) : M Unit := do
  emit (Event.makeArchive base_name format root_dir)
  let r ← fsGet root_dir
  match r with
  | some (FSNode.dir c) => fsSet (base_name ++ "." ++ format) (some (FSNode.file (FData.zipOfDir c)))
  | _ => throwPy (PyError.fileNotFound root_dir)

/-- Python `open(path, "rb")` followed by reading the contents. -/
def openRead (path : String) : M FData := do
  let n ← fsGet path
  match n with
  | some (FSNode.file d) => M.pure d
  | some (FSNode.dir _) => throwPy (PyError.osError ("IsADirectoryError: " ++ path))
  | none => throwPy (PyError.fileNotFound path)

/-- Python `str()` applied to a JSON scalar, as used when a JSON value is
interpolated into a URL or a printed message.  Composite values are
abbreviated (no modelled scenario interpolates a composite value). -/
def Json.pyStr : Json → String
  | Json.str s => s
  | Json.num n => toString n
  | Json.bool true => "True"
  | Json.bool false => "False"
  | Json.null => "None"
  | Json.arr _ => "<json array>"
  | Json.obj _ => "<json object>"

/-- Python dict indexing `j[key]` on a JSON value: `KeyError` when the key
is absent, `TypeError` when the value is not an object. -/
def jsonIndex (j : Json) (key : String) : M Json :=
  match j with
  | Json.obj fields =>
    match fields.lookup key with
    | some v => M.pure v
    | none => throwPy (PyError.keyError key)
  | _ => throwPy PyError.typeError

/-- Python `==` between a JSON value and a string: true exactly for an
equal JSON string (comparing a non-string to a string is `False`, not an
error). -/
def Json.eqStr : Json → String → Bool
  | Json.str s, t => s == t
  | _, _ => false

/-- Rendering of a caught exception when interpolated into an f-string
(as in `Original error: ` followed by the exception). -/
def PyError.render : PyError → String
  | PyError.stepExc e => e.message
  | PyError.indexError => "IndexError: string index out of range"
  | PyError.keyError k => "KeyError: " ++ k
  | PyError.typeError => "TypeError"
  | PyError.fileNotFound p => "FileNotFoundError: " ++ p
  | PyError.osError m => m
  | PyError.calledProcess m => m
  | PyError.eofError => "EOFError"

/-! The source functions of `create_release.py`, one Lean definition per
Python function, same names and order. -/

/-- Python `user_responds_yes` (src lines 15-25):
`return input(prompt + "? (Y/N) ")[0].lower() == "y"`.  Indexing `[0]` of
the empty response raises `IndexError`. -/
def user_responds_yes (prompt : String) : M Bool := do
  let r ← inputLine (prompt ++ "? (Y/N) ")
  match r.data with
  | [] => throwPy PyError.indexError
  | c :: _ => M.pure (c.toLower == 'y')

/-- Python `wait_for_user_to_press_enter` (src lines 28-35). -/
def wait_for_user_to_press_enter (prompt : String) : M Unit := do
  let _ ← inputLine (prompt ++ "\nPress enter to continue")
  M.pure ()

/-- Python `mount_share` (src lines 38-63). -/
def mount_share (script_gen_version drive_to_mount : String) : M Unit := do
  let share := "\\\\isis.cclrc.ac.uk\\inst$\\Kits$\\CompGroup\\ICP\\Releases\\script_generator_release\\Script_Gen_"
      ++ script_gen_version ++ "\\script_generator"
  pyTry (subprocess_check_call ("net use " ++ drive_to_mount ++ " " ++ share))
    (fun e => match e with
      | PyError.calledProcess m => throwPy (PyError.stepExc ⟨"\n            Failed to mount "
          ++ drive_to_mount ++ " to drive " ++ share
          ++ ".\n            Is drive " ++ drive_to_mount
          ++ " already in use?\n            If yes rerun and specify a free drive with the `-d` or `--drive` argument.\n            Do you currently have access to "
          ++ share
          ++ "?\n            Check your internet and VPN connection, try it in a file explorer.\n\n            Original error: "
          ++ m ++ "\n        "⟩)
      | e1 => throwPy e1)
  let isd ← os_path_isdir (drive_to_mount ++ "\\script_generator")
  if isd then
    M.pure ()
  else
    throwPy (PyError.stepExc ⟨"\n            " ++ drive_to_mount
      ++ "\\script_generator is not a directory.\n            Failed to mount "
      ++ drive_to_mount ++ " to drive " ++ share ++ ".\n        "⟩)

/-- Python `copy_from_share` (src lines 66-91). -/
def copy_from_share (mounted_drive : String) : M Unit := do
  let source := mounted_drive ++ "\\script_generator"
  let destination := "script_generator"
  pyTry (do
      printLine ("Deleting destination (" ++ destination ++ ") directory")
      pyTry (rmtree destination)
        (fun e => match e with
          | PyError.fileNotFound _ => M.pure ()
          | PyError.osError _ => wait_for_user_to_press_enter
              ("Failed to delete " ++ destination
               ++ ". Please do so manually and then press enter to continue.")
          | e1 => throwPy e1)
      printLine ("Copying from " ++ source ++ " to " ++ destination
        ++ ". This might take a few minutes.")
      copytree source destination)
    (fun e => match e with
      | PyError.osError _ => throwPy (PyError.stepExc ⟨"\n            Failed to copy tree from "
          ++ source ++ " to " ++ destination ++ ".\n\n            Original error: "
          ++ PyError.render e ++ "\n        "⟩)
      | PyError.fileNotFound _ => throwPy (PyError.stepExc ⟨"\n            Failed to copy tree from "
          ++ source ++ " to " ++ destination ++ ".\n\n            Original error: "
          ++ PyError.render e ++ "\n        "⟩)
      | e1 => throwPy e1)

/-- The `for name in os.listdir(plugins_dir)` loop of `remove_sms_lib`
(src lines 101-105), including its `break`: the first directory entry
starting with the preferences-plugin prefix yields the bundled Python
directory and the smslib directory derived from it. -/
def find_preferences_plugin (plugins_dir : String) : List String → M (Option (String × String))
  | [] => M.pure none
  | name :: rest => do
    let isd ← os_path_isdir (plugins_dir ++ "\\" ++ name)
    if isd && name.startsWith "uk.ac.stfc.isis.ibex.preferences" then
      let bundled_python_dir := plugins_dir ++ "\\" ++ name ++ "\\resources\\Python3"
      let sms_lib_dir := bundled_python_dir ++ "\\Lib\\site-packages\\smslib"
      M.pure (some (bundled_python_dir, sms_lib_dir))
    else
      find_preferences_plugin plugins_dir rest

/-- Python `str()` of an optional string, for the f-string that
interpolates `sms_lib_dir` (which can be `None`). -/
def pyStrOpt : Option String → String
  | some s => s
  | none => "None"

/-- Python `remove_sms_lib` (src lines 94-123). -/
def remove_sms_lib : M Unit := do
  let plugins_dir := "script_generator\\plugins"
  let names ← os_listdir plugins_dir
  let found ← find_preferences_plugin plugins_dir names
  let bundled_python_dir := match found with
    | some (b, _) => b
    | none => "<bundled python directory>"
  let sms_lib_dir : Option String := match found with
    | some (_, d) => some d
    | none => none
  let _ ← (match found with
    | none => wait_for_user_to_press_enter
        ("Could not find preferences plugin that contains Python. Please remove smslib from bundled Python manually.")
    | some _ => M.pure ())
  wait_for_user_to_press_enter
    ("\nPlease search for usages of smslib in " ++ bundled_python_dir
     ++ ".\nE.g. in bash `grep -r smslib " ++ bundled_python_dir
     ++ "`\n\nIf any instances of usage do not import with a try except for ImportError and a mocked version of smslib in the except clause please correct this.\n")
  pyTry (match sms_lib_dir with
      | some d => rmtree d
      | none => M.pure ())
    (fun e => match e with
      | PyError.fileNotFound _ => wait_for_user_to_press_enter
          ("Could not remove " ++ pyStrOpt sms_lib_dir ++ ". Please do so manually.")
      | PyError.osError _ => wait_for_user_to_press_enter
          ("Could not remove " ++ pyStrOpt sms_lib_dir ++ ". Please do so manually.")
      | e1 => throwPy e1)

/-- Python `zip_script_gen` (src lines 126-142). -/
def zip_script_gen : M Unit := do
  pyTry (do
      printLine "Removing script_generator.zip"
      pyTry (os_remove "script_generator.zip")
        (fun e => match e with
          | PyError.fileNotFound _ => M.pure ()
          | e1 => throwPy e1)
      printLine "Zipping script_generator"
      make_archive "script_generator" "zip" "script_generator")
    (fun e => match e with
      | PyError.osError _ => throwPy (PyError.stepExc ⟨"\n            Failed to remove script_generator.zip and make new zip archive.\n\n            Original error: "
          ++ PyError.render e ++ "\n        "⟩)
      | PyError.fileNotFound _ => throwPy (PyError.stepExc ⟨"\n            Failed to remove script_generator.zip and make new zip archive.\n\n            Original error: "
          ++ PyError.render e ++ "\n        "⟩)
      | e1 => throwPy e1)

/-- Python `create_release` (src lines 145-176). -/
def create_release (script_gen_version api_url api_token : String) : M String := do
  let response ← httpCall
    { method := "POST"
      url := api_url
      headers := [("Authorization", "token " ++ api_token)]
      jsonBody := [("tag_name", Json.str "base"),
                   ("name", Json.str ("v" ++ script_gen_version)),
                   ("body", Json.str ("Version " ++ script_gen_version
                     ++ " of the script generator available for download")),
                   ("draft", Json.bool false),
                   ("prerelease", Json.bool false)]
      dataFile := none }
  if 200 ≤ response.status_code ∧ response.status_code < 300 then do
    printLine ("Successfully created release, status code: "
      ++ toString response.status_code ++ ".")
    let idJson ← jsonIndex response.json "id"
    let release_id := Json.pyStr idJson
    printLine ("Please keep a note of release id: " ++ release_id)
    M.pure release_id
  else
    throwPy (PyError.stepExc ⟨"\n            Failed to create release, github response:\n            "
      ++ toString response.status_code ++ ": " ++ response.reason
      ++ "\n            Response text: " ++ response.text ++ "\n        "⟩)

/-- Python `_upload_script_generator_asset` (src lines 179-200). -/
def _upload_script_generator_asset (api_url api_token release_id : String) : M Unit := do
  let zipData ← openRead "script_generator.zip"
  let response ← httpCall
    { method := "POST"
      url := api_url ++ "/" ++ release_id ++ "/assets?name=script_generator.zip"
      headers := [("Accept", "application/vnd.github.v3+json"),
                  ("Authorization", "token " ++ api_token),
                  ("Content-Type", "application/zip")]
      jsonBody := []
      dataFile := some zipData }
  if 200 ≤ response.status_code ∧ response.status_code < 300 then do
    printLine ("Successfully uploaded script_generator.zip assert, status code: "
      ++ toString response.status_code ++ ".")
    printJson response.json
  else
    throwPy (PyError.stepExc ⟨"Failed to create release: "
      ++ toString response.status_code ++ ": " ++ response.reason⟩)

/-- The `for asset in check_assets_response.json()` loop of
`upload_script_generator_asset_step` (src lines 220-223), including its
`break`: the id of the first asset named `script_generator.zip`. -/
def find_asset_id : List Json → M (Option Json)
  | [] => M.pure none
  | asset :: rest => do
    let name ← jsonIndex asset "name"
    if Json.eqStr name "script_generator.zip" then do
      let i ← jsonIndex asset "id"
      M.pure (some i)
    else
      find_asset_id rest

/-- Python `upload_script_generator_asset_step` (src lines 203-242).  The
release id is `Option String` because the pipeline passes it the value of
the create step, which is Python `None` when that step was skipped. -/
def upload_script_generator_asset_step (upload_url api_url api_token : String)
    (release_id : Option String) : M Unit := do
  let release_id ← (match release_id with
    | none => do
        printLine "Release id has not been defined when creating the release."
        inputLine "Please input release id >> "
    | some rid => M.pure rid)
  let check_assets_response ← httpCall
    { method := "GET"
      url := api_url ++ "/" ++ release_id ++ "/assets"
      headers := []
      jsonBody := []
      dataFile := none }
  let asset_id ← (match check_assets_response.json with
    | Json.arr assets => find_asset_id assets
    | _ => throwPy PyError.typeError)
  match asset_id with
  | some aid => do
    let yes ← user_responds_yes
      "script_generator.zip already exists. Would you like to delete it and upload a new one"
    if yes then do
      let delete_asset_response ← httpCall
        { method := "DELETE"
          url := api_url ++ "/assets/" ++ Json.pyStr aid
          headers := [("Authorization", "token " ++ api_token)]
          jsonBody := []
          dataFile := none }
      if 200 ≤ delete_asset_response.status_code ∧ delete_asset_response.status_code < 300 then
        printLine ("Successfully deleted script_generator.zip asset, status code: "
          ++ toString delete_asset_response.status_code ++ ".")
      else
        printLine ("Failed to delete script_generator.zip asset. Please do so manually. Error: "
          ++ toString delete_asset_response.status_code ++ ": "
          ++ delete_asset_response.reason)
      _upload_script_generator_asset upload_url api_token release_id
    else
      M.pure ()
  | none => _upload_script_generator_asset upload_url api_token release_id

/-- Python `smoke_test_release` (src lines 245-341). -/
def smoke_test_release : M Unit := do
  wait_for_user_to_press_enter
    ("Follow steps on https://github.com/ISISComputingGroup/ibex_user_manual/wiki/Downloading-and-Installing-The-IBEX-Script-Generator to download and install the script generator.\n")
  wait_for_user_to_press_enter
    ("Rename C:\\Instrument\\Apps\\Python3 to C:\\Instrument\\Apps\\Python3_temp to ensure smoke testing uses correct Python.\nYou may have to stop and rerun this script (you can skip past steps).\n")
  wait_for_user_to_press_enter
    ("Close and restart the script generator and check that it is using the bundled python.\nThe script generator should load in less than a few seconds.\n")
  wait_for_user_to_press_enter
    ("Is there a box containing script definition errors?\nIf none then that is fine, if there are they logical or are they a problem?\nDoes the help text, and the columns update?\n")
  wait_for_user_to_press_enter
    ("Attempt to switch between script definitions.\nDoes the help text, and the columns update?\n")
  wait_for_user_to_press_enter
    ("On a relevant script definition add 2 actions.\nDoes the focus changed to the added action?\n")
  wait_for_user_to_press_enter
    ("Change the values of both actions to be valid.\nChange the values of both actions to be invalid.\nWhen you click the Get Validity Errors button does a list of errors show?\nWhen you hover over an invalid row, does a relevant tooltip appear?\n")
  wait_for_user_to_press_enter
    ("Change the values of both actions to be valid but different.\nDoes the display of whether the actions are valid or not make sense?\nDoes the Get Validity Errors button become enabled and disabled correctly?\n")
  wait_for_user_to_press_enter
    ("Duplicate one of the actions.\nIndependently change the values of the new and duplicated actions.\nDo values both change independently and not affect each other's value?\n")
  wait_for_user_to_press_enter
    ("Highlight two actions and duplicate them.\nAre there two new values?\nDo they have the expected values?\nIndependently change the values of the new and duplicated actions.\nDo values both change independently and not affect each other's value?\n")
  wait_for_user_to_press_enter
    ("Highlight actions and move them up and down.\nDo the actions rows move around logically?\n")
  wait_for_user_to_press_enter
    ("Highlight two actions and delete them.\nWere the selected two actions deleted?\n")
  wait_for_user_to_press_enter
    ("Press the Clear All Actions button.\nAre all rows deleted?\n")
  wait_for_user_to_press_enter
    ("Add two valid actions.\nSave the parameters.\nLoad the saved parameters back twice, the first time appending and the second replacing.\nAre rows appended to and then replace correctly?\n")
  wait_for_user_to_press_enter
    ("Does the estimated run time display logically add estimated row times together?\n")
  wait_for_user_to_press_enter
    ("Press the generate script button.\nSave and open in the editor.\nDoes the generated script display in notepad++?\nIs the correct script definition loaded into it?\nIs there a runscript method with all my actions in?\nIs there a variable called value containing a compressed json string?\n")
  wait_for_user_to_press_enter
    ("Click the Open Manual button.\nHas the Using the Script Generator page opened in a web browser?\n")
  wait_for_user_to_press_enter
    ("Check log for any issues complaining about mocking smslib and others that look suspicious.\n")
  wait_for_user_to_press_enter "Undo name change of C:\\Instrument\\Apps\\Python3."

/-- Python `remove_release` (src lines 344-368).  As with the upload step,
the release id is `Option String`. -/
def remove_release (api_url api_token : String) (release_id : Option String) : M Unit := do
  let release_id ← (match release_id with
    | none => do
        printLine "Release id has not been defined when creating the release."
        inputLine "Please input release id >> "
    | some rid => M.pure rid)
  let yes ← user_responds_yes "Are you sure you want to delete the release"
  if yes then do
    let response ← httpCall
      { method := "DELETE"
        url := api_url ++ "/" ++ release_id
        headers := [("Authorization", "token " ++ api_token)]
        jsonBody := []
        dataFile := none }
    if 200 ≤ response.status_code ∧ response.status_code < 300 then
      printLine ("Successfully deleted release, status code: "
        ++ toString response.status_code ++ ".")
    else
      throwPy (PyError.stepExc ⟨"\n                Failed to delete release, github reponse:\n                "
        ++ toString response.status_code ++ ": " ++ response.reason ++ "\n            "⟩)
  else
    printLine "Release not deleted"

/-- Python `run_step` (src lines 371-384): ask the operator, and run the
step operation only on a yes.  Python returns the operation's value when
the step ran and (implicitly) `None` when it was skipped; this is the
`Option` of the result: `some v` when the step ran producing `v`, `none`
when it was skipped. -/
def run_step (step_description : String) (step_lambda : M α) : M (Option α) := do
  let yes ← user_responds_yes ("\n\nDo STEP: " ++ step_description)
  if yes then do
    printLine ("STEP: " ++ step_description)
    let v ← step_lambda
    M.pure (some v)
  else
    M.pure none

/-- The command-line arguments of the script (src lines 389-403). -/
structure Args where
  script_gen_version : String
  github_token : String
  drive : String

/-- Src line 411. -/
def github_repo_api_url : String :=
  "https://api.github.com/repos/ISISComputingGroup/ScriptGeneratorReleases/releases"

/-- Src line 412. -/
def github_repo_uploads_url : String :=
  "https://uploads.github.com/repos/ISISComputingGroup/ScriptGeneratorReleases/releases"

/-- The body of the `try` in the `__main__` block (src lines 405-427):
the fixed, ordered step sequence, threading the create step's release id
into the upload and delete steps. -/
def main_steps (args : Args) : M Unit := do
  let _ ← run_step "mount share" (mount_share args.script_gen_version args.drive)
  let _ ← run_step "copy from share to local" (copy_from_share args.drive)
  let _ ← run_step "remove sms lib" remove_sms_lib
  let _ ← run_step "zip script generator" zip_script_gen
  let release_id ← run_step "create release"
    (create_release args.script_gen_version github_repo_api_url args.github_token)
  let _ ← run_step "upload script generator to release"
    (upload_script_generator_asset_step github_repo_uploads_url github_repo_api_url
      args.github_token release_id)
  let _ ← run_step "smoke test release" smoke_test_release
  let _ ← run_step "If smoke test has failed, delete release"
    (remove_release github_repo_api_url args.github_token release_id)
  M.pure ()

/-- The `__main__` block (src lines 404-429): run the step sequence under
the single top-level `except StepException` handler, which prints the
diagnostic message and ends the run. -/
def main_block (args : Args) : M Unit :=
  pyTry (main_steps args)
    (fun e => match e with
      | PyError.stepExc se => printLine ("Failed step in releasing: " ++ se.message)
      | e1 => throwPy e1)

/-! Scenario fixtures: concrete environments, filesystems and operator
responses used to settle the claims. -/

/-- A neutral environment: every request answered 200 with empty JSON,
`net use` succeeds, directory listings are empty. -/
def env0 : Env := ⟨fun _ => ⟨200, "OK", "", Json.null⟩, fun _ => none, fun _ => []⟩

/-- The empty filesystem. -/
def fs0 : String → Option FSNode := fun _ => none

/-- An instrumented step operation that records one `shell` event when it
is invoked: `run_step` itself never emits `shell` events, so counting
`shell` events in a `run_step probe` trace counts the invocations of the
operation. -/
def probe : M Unit := fun _ s => (Except.ok (), [Event.shell "probe invoked"], s)

/-- Remote host on which the release already carries an asset named
`script_generator.zip` (id 13); deleting answers 204 and uploading 201. -/
def envAsset : Env :=
  ⟨fun req =>
    if req.method = "GET" then
      ⟨200, "OK", "", Json.arr [Json.obj [("name", Json.str "script_generator.zip"), ("id", Json.num 13)]]⟩
    else if req.method = "DELETE" then ⟨204, "No Content", "", Json.null⟩
    else ⟨201, "Created", "", Json.obj []⟩,
   fun _ => none, fun _ => []⟩

/-- Remote host as `envAsset` but the DELETE of the old asset is answered
with an arbitrary status and reason. -/
def envDelFail (sc : Nat) (reason : String) : Env :=
  ⟨fun req =>
    if req.method = "GET" then
      ⟨200, "OK", "", Json.arr [Json.obj [("name", Json.str "script_generator.zip"), ("id", Json.num 13)]]⟩
    else if req.method = "DELETE" then ⟨sc, reason, "", Json.null⟩
    else ⟨201, "Created", "", Json.obj []⟩,
   fun _ => none, fun _ => []⟩

/-- Remote host that answers the create POST with 201 and a release id. -/
def envCreate201 : Env :=
  ⟨fun _ => ⟨201, "Created", "", Json.obj [("id", Json.num 987)]⟩, fun _ => none, fun _ => []⟩

/-- Remote host on which the release carries no assets yet. -/
def envNoAsset : Env :=
  ⟨fun req =>
    if req.method = "GET" then ⟨200, "OK", "", Json.arr []⟩
    else ⟨201, "Created", "", Json.obj []⟩,
   fun _ => none, fun _ => []⟩

/-- Remote host that answers the delete-release DELETE with 204. -/
def envDelete204 : Env :=
  ⟨fun _ => ⟨204, "No Content", "", Json.null⟩, fun _ => none, fun _ => []⟩

/-- Filesystem holding the zipped script generator ready for upload. -/
def fsZ (b : Nat) : String → Option FSNode :=
  fun p => if p = "script_generator.zip" then some (FSNode.file (FData.raw b)) else none

/-- Filesystem for the copy step: the mounted share holds the source tree
(fingerprint `c`) and the local destination does not exist. -/
def fsA (c : Nat) : String → Option FSNode :=
  fun p => if p = "Z:\\script_generator" then some (FSNode.dir c) else none

/-- Filesystem for the copy step: the source tree (fingerprint `c`) and a
stale previous local copy (fingerprint `d`). -/
def fsB (c d : Nat) : String → Option FSNode :=
  fun p => if p = "Z:\\script_generator" then some (FSNode.dir c)
    else if p = "script_generator" then some (FSNode.dir d) else none

/-- Filesystem for the archive step: the workspace directory exists
(fingerprint `c`) and no archive exists yet. -/
def fsZipNo (c : Nat) : String → Option FSNode :=
  fun p => if p = "script_generator" then some (FSNode.dir c) else none

/-- Filesystem for the archive step: the workspace directory (fingerprint
`c`) plus a pre-existing archive file with arbitrary contents `old`. -/
def fsZipOld (c : Nat) (old : FData) : String → Option FSNode :=
  fun p => if p = "script_generator" then some (FSNode.dir c)
    else if p = "script_generator.zip" then some (FSNode.file old) else none

/-- Whether an event is compatible with "every HTTP call sends the token
in its Authorization header": non-HTTP events vacuously, HTTP events
exactly when the header is present. -/
def eventSendsAuth (token : String) : Event → Bool
  | Event.http req => req.headers.contains ("Authorization", "token " ++ token)
  | _ => true

/-! Statement forms of the claims that carry hypotheses, shared between
each claim theorem and its witness. -/

/-- Conclusion of claim C2, for a response line `r`: running `run_step`
produces exactly the operation's one-run outcome — result wrapped in
`some` (Python hands the operation's value through; the skip case would
be `none`), the operation's events after the prompt and the step
announcement, and the operation's final state — and the instrumented
`probe` operation is invoked exactly once. -/
def C2Statement (d r : String) (rest : List String) (fs : String → Option FSNode)
    (env : Env) {α : Type} (op : M α) : Prop :=
  (run_step d op env ⟨r :: rest, fs⟩
    = (Except.map some (op env ⟨rest, fs⟩).1,
       Event.prompt ("\n\nDo STEP: " ++ d ++ "? (Y/N) ")
         :: Event.print ("STEP: " ++ d) :: (op env ⟨rest, fs⟩).2.1,
       (op env ⟨rest, fs⟩).2.2))
  ∧ (run_step d probe env ⟨r :: rest, fs⟩).2.1.countP
      (fun e => match e with | Event.shell _ => true | _ => false) = 1

/-- Conclusion of claim C3: when the confirmed operation ends in a
`StepException`, `run_step` ends in the very same exception, adding only
its prompt and announcement before the operation's events. -/
def C3Statement (d r : String) (rest : List String) (fs : String → Option FSNode)
    (env : Env) {α : Type} (op : M α) (se : StepException) (evs : List Event) (s1 : S) : Prop :=
  run_step d op env ⟨r :: rest, fs⟩
    = (Except.error (PyError.stepExc se),
       Event.prompt ("\n\nDo STEP: " ++ d ++ "? (Y/N) ")
         :: Event.print ("STEP: " ++ d) :: evs, s1)

/-- Conclusion of claim C4: (1) `create_release` answered any non-2xx
status raises a `StepException` after the single POST, leaving the state
untouched; (2,3) its message contains the status code and the reason;
(4) end to end at status 422: the pipeline run consists of the five
confirmation prompts up to the create step, the step announcement, the
create POST, and the top-level handler's diagnostic print — no upload,
smoke-test or delete step event follows; (5,6) the printed diagnostic
contains the status code and the reason. -/
def C4Statement (version api_url token drive reason text : String) (sc : Nat)
    (stdin rest : List String) (fs : String → Option FSNode) : Prop :=
  (create_release version api_url token
      ⟨fun _ => ⟨sc, reason, text, Json.null⟩, fun _ => none, fun _ => []⟩ ⟨stdin, fs⟩
    = (Except.error (PyError.stepExc ⟨"\n            Failed to create release, github response:\n            "
          ++ toString sc ++ ": " ++ reason ++ "\n            Response text: " ++ text ++ "\n        "⟩),
       [Event.http ⟨"POST", api_url, [("Authorization", "token " ++ token)],
          [("tag_name", Json.str "base"),
           ("name", Json.str ("v" ++ version)),
           ("body", Json.str ("Version " ++ version ++ " of the script generator available for download")),
           ("draft", Json.bool false),
           ("prerelease", Json.bool false)], none⟩],
       ⟨stdin, fs⟩))
  ∧ (∃ pre post, ("\n            Failed to create release, github response:\n            "
        ++ toString sc ++ ": " ++ reason ++ "\n            Response text: " ++ text ++ "\n        ").data
      = pre ++ (toString sc).data ++ post)
  ∧ (∃ pre post, ("\n            Failed to create release, github response:\n            "
        ++ toString sc ++ ": " ++ reason ++ "\n            Response text: " ++ text ++ "\n        ").data
      = pre ++ reason.data ++ post)
  ∧ (main_block ⟨version, token, drive⟩
        ⟨fun _ => ⟨422, reason, text, Json.null⟩, fun _ => none, fun _ => []⟩
        ⟨"n" :: "n" :: "n" :: "n" :: "y" :: rest, fs⟩
      = (Except.ok (),
         [Event.prompt "\n\nDo STEP: mount share? (Y/N) ",
          Event.prompt "\n\nDo STEP: copy from share to local? (Y/N) ",
          Event.prompt "\n\nDo STEP: remove sms lib? (Y/N) ",
          Event.prompt "\n\nDo STEP: zip script generator? (Y/N) ",
          Event.prompt "\n\nDo STEP: create release? (Y/N) ",
          Event.print "STEP: create release",
          Event.http ⟨"POST", github_repo_api_url,
            [("Authorization", "token " ++ token)],
            [("tag_name", Json.str "base"),
             ("name", Json.str ("v" ++ version)),
             ("body", Json.str ("Version " ++ version ++ " of the script generator available for download")),
             ("draft", Json.bool false),
             ("prerelease", Json.bool false)], none⟩,
          Event.print ("Failed step in releasing: "
            ++ ("\n            Failed to create release, github response:\n            "
                ++ toString (422:Nat) ++ ": "
                ++ reason ++ "\n            Response text: " ++ text ++ "\n        "))],
         ⟨rest, fs⟩))
  ∧ (∃ pre post, ("Failed step in releasing: "
        ++ ("\n            Failed to create release, github response:\n            "
            ++ toString (422:Nat) ++ ": "
            ++ reason ++ "\n            Response text: " ++ text ++ "\n        ")).data
      = pre ++ (toString (422:Nat)).data ++ post)
  ∧ (∃ pre post, ("Failed step in releasing: "
        ++ ("\n            Failed to create release, github response:\n            "
            ++ toString (422:Nat) ++ ": "
            ++ reason ++ "\n            Response text: " ++ text ++ "\n        ")).data
      = pre ++ reason.data ++ post)

/-- Conclusion of claim C7 for a declining response `r`: on `envAsset`
(same-named asset present) the step issues only the asset-listing GET and
the replacement prompt — no DELETE, no upload POST — and succeeds with the
state otherwise unchanged. -/
def C7DeclineStatement (token : String) (b : Nat) (r : String) : Prop :=
  upload_script_generator_asset_step "UPURL" "APIURL" token (some "987") envAsset ⟨[r], fsZ b⟩
    = (Except.ok (),
       [Event.http ⟨"GET", "APIURL/987/assets", [], [], none⟩,
        Event.prompt "script_generator.zip already exists. Would you like to delete it and upload a new one? (Y/N) "],
       ⟨[], fsZ b⟩)

/-- Conclusion of claim C7 for an accepting response `r`: the step issues
the asset-listing GET, the replacement prompt, then the DELETE of the old
asset and only afterwards the upload POST of the new one. -/
def C7AcceptStatement (token : String) (b : Nat) (r : String) : Prop :=
  upload_script_generator_asset_step "UPURL" "APIURL" token (some "987") envAsset ⟨[r], fsZ b⟩
    = (Except.ok (),
       [Event.http ⟨"GET", "APIURL/987/assets", [], [], none⟩,
        Event.prompt "script_generator.zip already exists. Would you like to delete it and upload a new one? (Y/N) ",
        Event.http ⟨"DELETE", "APIURL/assets/" ++ toString (13:Int),
          [("Authorization", "token " ++ token)], [], none⟩,
        Event.print ("Successfully deleted script_generator.zip asset, status code: "
          ++ toString (204:Nat) ++ "."),
        Event.http ⟨"POST", "UPURL/987/assets?name=script_generator.zip",
          [("Accept", "application/vnd.github.v3+json"),
           ("Authorization", "token " ++ token),
           ("Content-Type", "application/zip")], [], some (FData.raw b)⟩,
        Event.print ("Successfully uploaded script_generator.zip assert, status code: "
          ++ toString (201:Nat) ++ "."),
        Event.printJson (Json.obj [])],
       ⟨[], fsZ b⟩)

/-- Conclusion of claim C8: when the operator accepts replacement and the
DELETE of the old asset is answered with a non-2xx status, the step prints
the manual-cleanup warning, still performs the upload POST, and succeeds
— no `StepException` is raised. -/
def C8Statement (token reason : String) (sc b : Nat) : Prop :=
  upload_script_generator_asset_step "UPURL" "APIURL" token (some "987")
      (envDelFail sc reason) ⟨["y"], fsZ b⟩
    = (Except.ok (),
       [Event.http ⟨"GET", "APIURL/987/assets", [], [], none⟩,
        Event.prompt "script_generator.zip already exists. Would you like to delete it and upload a new one? (Y/N) ",
        Event.http ⟨"DELETE", "APIURL/assets/" ++ toString (13:Int),
          [("Authorization", "token " ++ token)], [], none⟩,
        Event.print ("Failed to delete script_generator.zip asset. Please do so manually. Error: "
          ++ toString sc ++ ": " ++ reason),
        Event.http ⟨"POST", "UPURL/987/assets?name=script_generator.zip",
          [("Accept", "application/vnd.github.v3+json"),
           ("Authorization", "token " ++ token),
           ("Content-Type", "application/zip")], [], some (FData.raw b)⟩,
        Event.print ("Successfully uploaded script_generator.zip assert, status code: "
          ++ toString (201:Nat) ++ "."),
        Event.printJson (Json.obj [])],
       ⟨[], fsZ b⟩)

/-! Evaluation lemmas for the effect monad, used to run the embedded
program symbolically inside proofs. -/

@[simp] theorem bind_apply (x : M α) (f : α → M β) (env : Env) (s : S) :
    (x >>= f) env s = (match x env s with
      | (Except.ok a, evs, s1) => ((f a env s1).1, evs ++ (f a env s1).2.1, (f a env s1).2.2)
      | (Except.error e, evs, s1) => (Except.error e, evs, s1)) := rfl

@[simp] theorem pure_apply (a : α) (env : Env) (s : S) :
    (pure a : M α) env s = (Except.ok a, [], s) := rfl

@[simp] theorem mpure_apply (a : α) (env : Env) (s : S) :
    (M.pure a : M α) env s = (Except.ok a, [], s) := rfl

@[simp] theorem inputLine_cons (p : String) (env : Env) (l : String) (rest : List String)
    (fs : String → Option FSNode) :
    inputLine p env ⟨l :: rest, fs⟩ = (Except.ok l, [Event.prompt p], ⟨rest, fs⟩) := rfl

@[simp] theorem throwPy_apply (e : PyError) (env : Env) (s : S) :
    (throwPy e : M α) env s = (Except.error e, [], s) := rfl

@[simp] theorem emit_apply (e : Event) (env : Env) (s : S) :
    emit e env s = (Except.ok (), [e], s) := rfl

@[simp] theorem httpCall_apply (req : HttpRequest) (env : Env) (s : S) :
    httpCall req env s = (Except.ok (env.http req), [Event.http req], s) := rfl

@[simp] theorem fsGet_apply (p : String) (env : Env) (s : S) :
    fsGet p env s = (Except.ok (s.fs p), [], s) := rfl

@[simp] theorem ite_apply (b : Prop) [Decidable b] (x y : M α) (env : Env) (s : S) :
    (if b then x else y) env s = if b then x env s else y env s := by
  split <;> rfl

/-- The outcome of `user_responds_yes` on a non-empty response line: the
first character, lower-cased, is compared with `y`. -/
theorem user_responds_yes_head (p r : String) (c : Char) (t : List Char)
    (rest : List String) (fs : String → Option FSNode) (env : Env)
    (h : r.data = c :: t) :
    user_responds_yes p env ⟨r :: rest, fs⟩
      = (Except.ok (c.toLower == 'y'), [Event.prompt (p ++ "? (Y/N) ")], ⟨rest, fs⟩) := by
  simp [user_responds_yes, h]

/-- The outcome of `run_step` on an affirmative response: the prompt, the
step announcement, then exactly the operation's one run. -/
theorem run_step_yes_eq (d r : String) (c : Char) (t : List Char) (rest : List String)
    (fs : String → Option FSNode) (env : Env) (op : M α)
    (h : r.data = c :: t) (hy : c.toLower = 'y') :
    run_step d op env ⟨r :: rest, fs⟩ =
      (Except.map some (op env ⟨rest, fs⟩).1,
       Event.prompt ("\n\nDo STEP: " ++ d ++ "? (Y/N) ")
         :: Event.print ("STEP: " ++ d) :: (op env ⟨rest, fs⟩).2.1,
       (op env ⟨rest, fs⟩).2.2) := by
  simp [run_step, user_responds_yes_head _ _ _ _ _ _ _ h, hy, printLine, emit]
  rcases hop : op env ⟨rest, fs⟩ with ⟨res, evs, s1⟩
  rcases res <;> simp [Except.map]

/-! The claims. -/

/-- C1: the claim states that every operator response whose first
character is not `y`/`Y` — the empty response explicitly included — makes
`run_step` prompt, skip the operation and return an absent result without
error.  The code violates this at the empty response: `user_responds_yes`
evaluates `input(...)[0]`, which raises `IndexError` on an empty string,
so `run_step` aborts instead of returning `None` — and since the top-level
handler catches only `StepException`, the whole pipeline run aborts with
the `IndexError`.  This theorem evaluates both `run_step` and the full
pipeline at the failing input (the operator just pressing enter at the
first confirmation prompt). -/
theorem C1_empty_response_raises_index_error (version token drive : String) :
    (run_step "mount share" (M.pure ()) env0 ⟨[""], fs0⟩
      = (Except.error PyError.indexError,
         [Event.prompt "\n\nDo STEP: mount share? (Y/N) "], ⟨[], fs0⟩))
    ∧ (main_block ⟨version, token, drive⟩ env0 ⟨[""], fs0⟩
      = (Except.error PyError.indexError,
         [Event.prompt "\n\nDo STEP: mount share? (Y/N) "], ⟨[], fs0⟩)) :=
  ⟨rfl, rfl⟩

/-- C2: for every operator response whose first character is `y` or `Y`,
`run_step` invokes the given operation exactly once and returns exactly
the value the operation produces: its outcome is the operation's one-run
outcome (result, events, final state) behind the prompt and the step
announcement, and an instrumented operation is invoked exactly once. -/
theorem C2_affirmative_runs_operation_once (d r : String) (c : Char) (t : List Char)
    (rest : List String) (fs : String → Option FSNode) (env : Env) {α : Type} (op : M α)
    (h : r.data = c :: t) (hy : c.toLower = 'y') :
    C2Statement d r rest fs env op := by
  unfold C2Statement
  constructor
  · exact run_step_yes_eq d r c t rest fs env op h hy
  · rw [run_step_yes_eq d r c t rest fs env probe h hy]
    simp [probe, List.countP_cons]

/-- Witness for C2 at the response `yes` and an operation producing 5. -/
theorem C2_witness :
    ("yes".data = 'y' :: ['e', 's']) ∧ ('y'.toLower = 'y')
    ∧ C2Statement "mount share" "yes" [] fs0 env0 (M.pure (5:Nat)) :=
  ⟨by decide, by decide,
   C2_affirmative_runs_operation_once "mount share" "yes" 'y' ['e', 's'] [] fs0 env0
     (M.pure (5:Nat)) (by decide) (by decide)⟩

/-- C3: when the confirmed operation raises a `StepException`, `run_step`
propagates that same exception to its caller unmodified — same exception
value, the operation's events kept, no catch, no re-wrap. -/
theorem C3_propagates_step_exception (d r : String) (c : Char) (t : List Char)
    (rest : List String) (fs : String → Option FSNode) (env : Env) {α : Type} (op : M α)
    (se : StepException) (evs : List Event) (s1 : S)
    (h : r.data = c :: t) (hy : c.toLower = 'y')
    (hop : op env ⟨rest, fs⟩ = (Except.error (PyError.stepExc se), evs, s1)) :
    C3Statement d r rest fs env op se evs s1 := by
  unfold C3Statement
  rw [run_step_yes_eq d r c t rest fs env op h hy, hop]
  rfl

/-- Witness for C3 at the response `y` and an operation raising a
`StepException`. -/
theorem C3_witness :
    ("y".data = 'y' :: []) ∧ ('y'.toLower = 'y')
    ∧ ((throwPy (PyError.stepExc ⟨"mount failed"⟩) : M Unit) env0 ⟨[], fs0⟩
        = (Except.error (PyError.stepExc ⟨"mount failed"⟩), [], ⟨[], fs0⟩))
    ∧ C3Statement "mount share" "y" [] fs0 env0
        (throwPy (PyError.stepExc ⟨"mount failed"⟩) : M Unit) ⟨"mount failed"⟩ [] ⟨[], fs0⟩ :=
  ⟨by decide, by decide, rfl,
   C3_propagates_step_exception "mount share" "y" 'y' [] [] fs0 env0
     (throwPy (PyError.stepExc ⟨"mount failed"⟩)) ⟨"mount failed"⟩ [] ⟨[], fs0⟩
     (by decide) (by decide) rfl⟩

/-- C4: a non-2xx answer to the create POST makes `create_release` raise
a `StepException` whose message contains the status code and the reason;
end to end (at 422), the failure propagates past every remaining step to
the single top-level handler, which prints the diagnostic — the trace
ends at that print, so no later step runs. -/
theorem C4_create_failure_halts_pipeline (version api_url token drive reason text : String)
    (sc : Nat) (stdin rest : List String) (fs : String → Option FSNode)
    (h : ¬ (200 ≤ sc ∧ sc < 300)) :
    C4Statement version api_url token drive reason text sc stdin rest fs := by
  unfold C4Statement
  refine ⟨by simp [create_release, printLine, h], ?_, ?_, rfl, ?_, ?_⟩
  · exact ⟨("\n            Failed to create release, github response:\n            ").data,
      (": " ++ reason ++ "\n            Response text: " ++ text ++ "\n        ").data,
      by simp [String.data_append, List.append_assoc]⟩
  · exact ⟨("\n            Failed to create release, github response:\n            "
        ++ toString sc ++ ": ").data,
      ("\n            Response text: " ++ text ++ "\n        ").data,
      by simp [String.data_append, List.append_assoc]⟩
  · exact ⟨("Failed step in releasing: "
        ++ "\n            Failed to create release, github response:\n            ").data,
      (": " ++ reason ++ "\n            Response text: " ++ text ++ "\n        ").data,
      by simp [String.data_append, List.append_assoc]⟩
  · exact ⟨("Failed step in releasing: "
        ++ "\n            Failed to create release, github response:\n            "
        ++ toString (422:Nat) ++ ": ").data,
      ("\n            Response text: " ++ text ++ "\n        ").data,
      by simp [String.data_append, List.append_assoc]⟩

/-- Witness for C4 at status 422. -/
theorem C4_witness :
    (¬ (200 ≤ 422 ∧ 422 < 300))
    ∧ C4Statement "1.2.3" github_repo_api_url "TOK" "Z:" "Unprocessable Entity" "err"
        422 [] [] fs0 :=
  ⟨by decide,
   C4_create_failure_halts_pipeline "1.2.3" github_repo_api_url "TOK" "Z:"
     "Unprocessable Entity" "err" 422 [] [] fs0 (by decide)⟩

/-- C5: when the release identifier is absent (`None`) at the upload step
or at the delete-release step, the step prints the notice, prompts the
operator for an identifier, and then behaves exactly as it would have
with that identifier supplied — in particular it does not fail with a
missing-value fault. -/
theorem C5_missing_release_id_prompts_operator (upload_url api_url api_token rid : String)
    (stdin : List String) (fs : String → Option FSNode) (env : Env) :
    (upload_script_generator_asset_step upload_url api_url api_token none env ⟨rid :: stdin, fs⟩
      = ((upload_script_generator_asset_step upload_url api_url api_token (some rid) env ⟨stdin, fs⟩).1,
         Event.print "Release id has not been defined when creating the release."
           :: Event.prompt "Please input release id >> "
           :: (upload_script_generator_asset_step upload_url api_url api_token (some rid) env ⟨stdin, fs⟩).2.1,
         (upload_script_generator_asset_step upload_url api_url api_token (some rid) env ⟨stdin, fs⟩).2.2))
    ∧ (remove_release api_url api_token none env ⟨rid :: stdin, fs⟩
      = ((remove_release api_url api_token (some rid) env ⟨stdin, fs⟩).1,
         Event.print "Release id has not been defined when creating the release."
           :: Event.prompt "Please input release id >> "
           :: (remove_release api_url api_token (some rid) env ⟨stdin, fs⟩).2.1,
         (remove_release api_url api_token (some rid) env ⟨stdin, fs⟩).2.2)) :=
  ⟨rfl, rfl⟩

/-- C6, counterexample: the claim says every call to the remote API sends
the token in its Authorization header, but the asset-listing GET issued
by the upload step (src line 216) passes no headers at all: in a concrete
run of the upload step, not every HTTP event carries the Authorization
header. -/
theorem C6_list_assets_call_lacks_auth_header :
    ¬ ((upload_script_generator_asset_step "UPURL" "APIURL" "TOK" (some "987")
          envAsset ⟨["n"], fsZ 0⟩).2.1.all (eventSendsAuth "TOK") = true) := by
  decide

/-- C6, amended: every call the pipeline makes to the remote release-host
API except the asset-listing GET — the create POST, the delete-asset
DELETE, the upload POST and the delete-release DELETE — sends the token
in its Authorization header; the asset-listing GET is issued with no
headers.  Shown by the full request traces of the create step (2xx
answer), the upload step with no same-named asset, the upload step with a
same-named asset and replacement accepted, and the confirmed
delete-release step. -/
theorem C6_amended_auth_headers (version token : String) (b : Nat) (stdin : List String)
    (fs : String → Option FSNode) :
    (create_release version "APIURL" token envCreate201 ⟨stdin, fs⟩
      = (Except.ok (toString (987:Int)),
         [Event.http ⟨"POST", "APIURL",
            [("Authorization", "token " ++ token)],
            [("tag_name", Json.str "base"),
             ("name", Json.str ("v" ++ version)),
             ("body", Json.str ("Version " ++ version ++ " of the script generator available for download")),
             ("draft", Json.bool false),
             ("prerelease", Json.bool false)], none⟩,
          Event.print ("Successfully created release, status code: " ++ toString (201:Nat) ++ "."),
          Event.print ("Please keep a note of release id: " ++ toString (987:Int))],
         ⟨stdin, fs⟩))
    ∧ (upload_script_generator_asset_step "UPURL" "APIURL" token (some "987") envNoAsset ⟨stdin, fsZ b⟩
      = (Except.ok (),
         [Event.http ⟨"GET", "APIURL/987/assets", [], [], none⟩,
          Event.http ⟨"POST", "UPURL/987/assets?name=script_generator.zip",
            [("Accept", "application/vnd.github.v3+json"),
             ("Authorization", "token " ++ token),
             ("Content-Type", "application/zip")], [], some (FData.raw b)⟩,
          Event.print ("Successfully uploaded script_generator.zip assert, status code: "
            ++ toString (201:Nat) ++ "."),
          Event.printJson (Json.obj [])],
         ⟨stdin, fsZ b⟩))
    ∧ (upload_script_generator_asset_step "UPURL" "APIURL" token (some "987") envAsset ⟨"y" :: stdin, fsZ b⟩
      = (Except.ok (),
         [Event.http ⟨"GET", "APIURL/987/assets", [], [], none⟩,
          Event.prompt "script_generator.zip already exists. Would you like to delete it and upload a new one? (Y/N) ",
          Event.http ⟨"DELETE", "APIURL/assets/" ++ toString (13:Int),
            [("Authorization", "token " ++ token)], [], none⟩,
          Event.print ("Successfully deleted script_generator.zip asset, status code: "
            ++ toString (204:Nat) ++ "."),
          Event.http ⟨"POST", "UPURL/987/assets?name=script_generator.zip",
            [("Accept", "application/vnd.github.v3+json"),
             ("Authorization", "token " ++ token),
             ("Content-Type", "application/zip")], [], some (FData.raw b)⟩,
          Event.print ("Successfully uploaded script_generator.zip assert, status code: "
            ++ toString (201:Nat) ++ "."),
          Event.printJson (Json.obj [])],
         ⟨stdin, fsZ b⟩))
    ∧ (remove_release "APIURL" token (some "987") envDelete204 ⟨"y" :: stdin, fs⟩
      = (Except.ok (),
         [Event.prompt "Are you sure you want to delete the release? (Y/N) ",
          Event.http ⟨"DELETE", "APIURL/987",
            [("Authorization", "token " ++ token)], [], none⟩,
          Event.print ("Successfully deleted release, status code: " ++ toString (204:Nat) ++ ".")],
         ⟨stdin, fs⟩)) :=
  ⟨rfl, rfl, rfl, rfl⟩

/-- C7: with a same-named asset already on the release, declining the
replacement prompt makes the upload step end after the listing GET and
the prompt — no upload, no delete — while accepting makes it DELETE the
old asset first and only then POST the new one. -/
theorem C7_existing_asset_replacement_choice (token : String) (b : Nat)
    (rn ry : String) (cn cy : Char) (tn ty : List Char)
    (hn1 : rn.data = cn :: tn) (hn2 : cn.toLower ≠ 'y')
    (hy1 : ry.data = cy :: ty) (hy2 : cy.toLower = 'y') :
    C7DeclineStatement token b rn ∧ C7AcceptStatement token b ry := by
  constructor
  · have hb : (cn.toLower == 'y') = false := beq_eq_false_iff_ne.mpr hn2
    unfold C7DeclineStatement
    simp [upload_script_generator_asset_step, find_asset_id, jsonIndex, Json.eqStr,
          List.lookup, user_responds_yes_head _ _ _ _ _ _ _ hn1, hb, envAsset, Json.pyStr]
  · have hb : (cy.toLower == 'y') = true := by rw [hy2]; rfl
    unfold C7AcceptStatement
    simp [upload_script_generator_asset_step, find_asset_id, jsonIndex, Json.eqStr,
          List.lookup, user_responds_yes_head _ _ _ _ _ _ _ hy1, hb, envAsset, Json.pyStr,
          _upload_script_generator_asset, openRead, printLine, printJson, fsZ]

/-- Witness for C7 at the responses `n` and `y`. -/
theorem C7_witness :
    ("n".data = 'n' :: []) ∧ ('n'.toLower ≠ 'y')
    ∧ ("y".data = 'y' :: []) ∧ ('y'.toLower = 'y')
    ∧ (C7DeclineStatement "TOK" 0 "n" ∧ C7AcceptStatement "TOK" 0 "y") :=
  ⟨by decide, by decide, by decide, by decide,
   C7_existing_asset_replacement_choice "TOK" 0 "n" "y" 'n' 'y' [] []
     (by decide) (by decide) (by decide) (by decide)⟩

/-- C8: when the operator accepts replacing the existing asset and the
DELETE of the old asset is answered with any non-2xx status, the upload
step prints the manual-cleanup warning and still performs the upload of
the new asset — no `StepException`, no aborted step. -/
theorem C8_delete_failure_warns_and_uploads (token reason : String) (sc b : Nat)
    (h : ¬ (200 ≤ sc ∧ sc < 300)) :
    C8Statement token reason sc b := by
  unfold C8Statement
  simp [upload_script_generator_asset_step, find_asset_id, jsonIndex, Json.eqStr,
        List.lookup,
        user_responds_yes_head
          "script_generator.zip already exists. Would you like to delete it and upload a new one"
          "y" 'y' [] _ _ _ rfl,
        envDelFail, Json.pyStr, h,
        _upload_script_generator_asset, openRead, printLine, printJson, fsZ]

/-- Witness for C8 at delete status 500. -/
theorem C8_witness :
    (¬ (200 ≤ 500 ∧ 500 < 300)) ∧ C8Statement "TOK" "Server Error" 500 0 :=
  ⟨by decide, C8_delete_failure_warns_and_uploads "TOK" "Server Error" 500 0 (by decide)⟩

/-- C9: the copy step treats an absent destination as success (the
`FileNotFoundError` of the removal is swallowed) and proceeds to copy,
and with an existing destination it removes the prior copy before copying
(removal event strictly before the copy event); in both cases the step
succeeds and the destination ends as an exact copy of the source tree, so
no stale prior contents (fingerprint `d`) survive. -/
theorem C9_copy_step_replaces_destination (c d : Nat) (stdin : List String) (env : Env) :
    (copy_from_share "Z:" env ⟨stdin, fsA c⟩).1 = Except.ok ()
    ∧ (copy_from_share "Z:" env ⟨stdin, fsA c⟩).2.1
      = [Event.print "Deleting destination (script_generator) directory",
         Event.removeTree "script_generator",
         Event.print "Copying from Z:\\script_generator to script_generator. This might take a few minutes.",
         Event.copyTree "Z:\\script_generator" "script_generator"]
    ∧ (copy_from_share "Z:" env ⟨stdin, fsA c⟩).2.2.fs "script_generator" = some (FSNode.dir c)
    ∧ (copy_from_share "Z:" env ⟨stdin, fsA c⟩).2.2.stdin = stdin
    ∧ (copy_from_share "Z:" env ⟨stdin, fsB c d⟩).1 = Except.ok ()
    ∧ (copy_from_share "Z:" env ⟨stdin, fsB c d⟩).2.1
      = [Event.print "Deleting destination (script_generator) directory",
         Event.removeTree "script_generator",
         Event.print "Copying from Z:\\script_generator to script_generator. This might take a few minutes.",
         Event.copyTree "Z:\\script_generator" "script_generator"]
    ∧ (copy_from_share "Z:" env ⟨stdin, fsB c d⟩).2.2.fs "script_generator" = some (FSNode.dir c)
    ∧ (copy_from_share "Z:" env ⟨stdin, fsB c d⟩).2.2.stdin = stdin :=
  ⟨rfl, rfl, rfl, rfl, rfl, rfl, rfl, rfl⟩

/-- C10: the archive step tolerates a missing prior archive (the
`FileNotFoundError` of the removal is swallowed) and, whether or not a
prior `script_generator.zip` existed and whatever it contained, it ends
successfully with the archive path holding exactly the fresh archive of
the workspace directory — the single entry at that path, replacing any
previous one. -/
theorem C10_zip_step_fresh_archive (c : Nat) (old : FData) (stdin : List String) (env : Env) :
    (zip_script_gen env ⟨stdin, fsZipNo c⟩).1 = Except.ok ()
    ∧ (zip_script_gen env ⟨stdin, fsZipNo c⟩).2.1
      = [Event.print "Removing script_generator.zip",
         Event.removeFile "script_generator.zip",
         Event.print "Zipping script_generator",
         Event.makeArchive "script_generator" "zip" "script_generator"]
    ∧ (zip_script_gen env ⟨stdin, fsZipNo c⟩).2.2.fs "script_generator.zip"
      = some (FSNode.file (FData.zipOfDir c))
    ∧ (zip_script_gen env ⟨stdin, fsZipNo c⟩).2.2.stdin = stdin
    ∧ (zip_script_gen env ⟨stdin, fsZipOld c old⟩).1 = Except.ok ()
    ∧ (zip_script_gen env ⟨stdin, fsZipOld c old⟩).2.1
      = [Event.print "Removing script_generator.zip",
         Event.removeFile "script_generator.zip",
         Event.print "Zipping script_generator",
         Event.makeArchive "script_generator" "zip" "script_generator"]
    ∧ (zip_script_gen env ⟨stdin, fsZipOld c old⟩).2.2.fs "script_generator.zip"
      = some (FSNode.file (FData.zipOfDir c))
    ∧ (zip_script_gen env ⟨stdin, fsZipOld c old⟩).2.2.stdin = stdin :=
  ⟨rfl, rfl, rfl, rfl, rfl, rfl, rfl, rfl⟩

end CreateRelease
